import Mathlib

/-!
Shallow embedding of `node-metrics/src/service/data_state/mod.rs`:
the bounded-history `DataState` store, the pure block-summary builder
`create_block_detail_from_leaf`, the stake-table-order to identity-order
voter remap performed inside `process_incoming_leaf`, and the leaf
ingestion loop `process_leaf_stream`.

Machine integers are modelled as `Nat`/`Int` with explicit wrap-around
where the source casts; external collaborator types (leaves, stake table,
channels) are modelled at the interface boundary the source uses.
-/

set_option autoImplicit false

namespace NodeMetrics

/-- BLS public keys are opaque values with decidable equality; modelled as `Nat`. -/
abbrev BLSPubKey := Nat

/-- Modelled from the spec: `NodeIdentity` (module `node_identity`, not part of
the excerpt) is identity metadata keyed by a public key; `process_incoming_leaf`
and `add_node_identity` only ever use its `public_key` accessor, so the
remaining metadata is an opaque field. -/
structure NodeIdentity where
  public_key : BLSPubKey
  metadata : Nat
deriving DecidableEq, Repr

/-- One stake-table entry as enumerated by `try_iter`: `(BLSPubKey, stake
amount, state verification key)`; the last two components are opaque to this
module and modelled as `Nat`. -/
abbrev StakeEntry := BLSPubKey × Nat × Nat

/-- Snapshot versions of the stake table; the source only ever queries
`SnapshotVersion::LastEpochStart`. -/
inductive SnapshotVersion where
  | lastEpochStart
deriving DecidableEq, Repr

/-- External stake-table collaborator, modelled at the one interface point the
source uses: `try_iter(SnapshotVersion::LastEpochStart)` either yields an
ordered enumeration of entries or fails (`None`). -/
structure StakeTable where
  entries_last_epoch_start : Option (List StakeEntry)
deriving DecidableEq, Repr

/-- Source `StakeTable::try_iter` at a snapshot version. -/
def StakeTable.try_iter (st : StakeTable) (v : SnapshotVersion) :
    Option (List StakeEntry) :=
  match v with
  | .lastEpochStart => st.entries_last_epoch_start

/-- A block payload: the ordered list of transactions, each transaction being
its byte payload (bytes modelled as `Nat`). -/
structure Payload where
  txs : List (List Nat)
deriving DecidableEq, Repr

/-- Source `Payload::empty().0`: the canonical empty payload. -/
def Payload.empty : Payload := ⟨[]⟩

/-- Source `payload.num_transactions(metadata)`. -/
def Payload.num_transactions (p : Payload) (_metadata : Nat) : Nat :=
  p.txs.length

/-- Source `payload.transactions(metadata)`: iterator over the transactions. -/
def Payload.transactions (p : Payload) (_metadata : Nat) : List (List Nat) :=
  p.txs

/-- Block header fields read by `create_block_detail_from_leaf`; `timestamp`
is the raw `u64` epoch-seconds value. -/
structure Header where
  commitment : Nat
  height : Nat
  timestamp : Nat
  proposer_id : Nat
  metadata : Nat
  fee_info_balance : Nat
  fee_info_account : Nat
deriving DecidableEq, Repr

/-- A finalized consensus leaf: header, optional payload, and the quorum
certificate signatures `Option<(aggregate_signature, BitVec, ..)>`, of which
the source only uses the voter `BitVec` (component `.1`). -/
structure Leaf where
  block_header : Header
  block_payload : Option Payload
  justify_qc_signatures : Option (Nat × List Bool)
deriving DecidableEq, Repr

/-- Source `u64 as i64`: two's-complement reinterpretation of the raw timestamp. -/
def u64_as_i64 (t : Nat) : Int :=
  let r : Nat := t % 2 ^ 64
  if r < 2 ^ 63 then (r : Int) else (r : Int) - 2 ^ 64

/-- Smallest unix-seconds value representable by `OffsetDateTime`
(`-9999-01-01T00:00:00Z`). -/
def offsetDateTimeMinUnix : Int := -377705116800

/-- Largest unix-seconds value representable by `OffsetDateTime`
(`9999-12-31T23:59:59Z`). -/
def offsetDateTimeMaxUnix : Int := 253402300799

/-- Source `OffsetDateTime::from_unix_timestamp`: succeeds exactly on the
representable range, returning the instant (modelled by its unix-seconds
value). -/
def from_unix_timestamp (t : Int) : Option Int :=
  if offsetDateTimeMinUnix ≤ t ∧ t ≤ offsetDateTimeMaxUnix then some t else none

/-- Source `OffsetDateTime::UNIX_EPOCH` as unix seconds. -/
def UNIX_EPOCH : Int := 0

/-- Source `BlockDetail<SeqTypes>` with exactly the fields the source constructs;
`time` is the unix-seconds value of the `Timestamp`. -/
structure BlockDetail where
  hash : Nat
  height : Nat
  time : Int
  proposer_id : Nat
  num_transactions : Nat
  block_reward : List Nat
  fee_recipient : Nat
  size : Nat
deriving DecidableEq, Repr

/-- Source `create_block_detail_from_leaf`: build a `BlockDetail` from a leaf. -/
def create_block_detail_from_leaf (leaf : Leaf) : BlockDetail :=
  let block_header := leaf.block_header
  let block_payload := leaf.block_payload.getD Payload.empty
  { hash := block_header.commitment
    height := block_header.height
    time := (from_unix_timestamp (u64_as_i64 block_header.timestamp)).getD UNIX_EPOCH
    proposer_id := block_header.proposer_id
    num_transactions := block_payload.num_transactions block_header.metadata
    block_reward := [block_header.fee_info_balance]
    fee_recipient := block_header.fee_info_account
    size := (block_payload.transactions block_header.metadata).foldl
      (fun acc tx => acc + tx.length) 0 }

/-- Source `MAX_HISTORY`: capacity of each bounded history buffer. -/
def MAX_HISTORY : Nat := 50

/-- Source `CircularBuffer::<MAX_HISTORY, _>::push_back`: append at the back,
evicting the front element when the buffer is at capacity. -/
def circularPushBack {α : Type} (l : List α) (x : α) : List α :=
  if l.length = MAX_HISTORY then l.tail ++ [x] else l ++ [x]

/-- The `DataState` store: bounded block and voter histories, the current
stake-table snapshot, and the insertion-ordered node-identity registry. -/
structure DataState where
  latest_blocks : List BlockDetail
  latest_voters : List (List Bool)
  stake_table : StakeTable
  node_identity : List (BLSPubKey × NodeIdentity)
deriving DecidableEq, Repr

/-- Source `DataState::replace_stake_table`. -/
def DataState.replace_stake_table (s : DataState) (stake_table : StakeTable) :
    DataState :=
  { s with stake_table := stake_table }

/-- Source `DataState::add_latest_block`. -/
def DataState.add_latest_block (s : DataState) (block : BlockDetail) :
    DataState :=
  { s with latest_blocks := circularPushBack s.latest_blocks block }

/-- Source `DataState::add_latest_voters`. -/
def DataState.add_latest_voters (s : DataState) (voters : List Bool) :
    DataState :=
  { s with latest_voters := circularPushBack s.latest_voters voters }

/-- Source `DataState::add_node_identity`. -/
def DataState.add_node_identity (s : DataState) (identity : NodeIdentity) :
    DataState :=
  { s with node_identity := s.node_identity ++ [(identity.public_key, identity)] }

/-- The raw stake-table-order voter bitmap extracted from a leaf:
`signatures.as_ref().map_or(Default::default(), |sig| sig.1.clone())`
(the default `BitVec` is empty). -/
def leafRawBitVec (leaf : Leaf) : List Bool :=
  (leaf.justify_qc_signatures.map Prod.snd).getD []

/-- The stake-table enumeration used for the remap:
`stake_table.try_iter(SnapshotVersion::LastEpochStart).map_or(vec![], collect)`. -/
def stakeEntriesVec (st : StakeTable) : List StakeEntry :=
  (st.try_iter SnapshotVersion.lastEpochStart).getD []

/-- The keys whose positionally paired bit is set: `zip` the raw bitmap with
the enumeration (truncating to the shorter), keep pairs whose bit is set, and
project the entry key. Collected into a `HashSet` in the source; modelled as
the list, used for membership only. -/
def votedKeys (raw : List Bool) (entries : List StakeEntry) : List BLSPubKey :=
  ((List.zip raw entries).filter (fun p => p.1)).map (fun p => p.2.1)

/-- The voter remap performed inside `process_incoming_leaf`: fold over the
node-identity registry in stored order, pushing for each registered key
whether it is a member of the voted-key set. -/
def voterRemap (raw : List Bool) (entries : List StakeEntry)
    (registry : List (BLSPubKey × NodeIdentity)) : List Bool :=
  let voters_set := votedKeys raw entries
  registry.foldl (fun acc key => acc ++ [decide (key.1 ∈ voters_set)]) []

/-- Source `SendError`: the receiving end of a channel has disconnected. -/
inductive SendError where
  | disconnected
deriving DecidableEq, Repr

/-- Source `ProcessLeafError`. -/
inductive ProcessLeafError where
  | sendError (err : SendError)
deriving DecidableEq, Repr

instance : DecidableEq (Except ProcessLeafError Unit) := fun a b =>
  match a, b with
  | .ok (), .ok () => isTrue rfl
  | .ok (), .error _ => isFalse (fun h => Except.noConfusion h)
  | .error _, .ok () => isFalse (fun h => Except.noConfusion h)
  | .error e, .error f =>
    if h : e = f then isTrue (by rw [h])
    else isFalse (fun hh => h (by injection hh))

/-- Observable outcome of `process_incoming_leaf`: the updated store, the
values successfully delivered on each output channel, and the returned
`Result`. -/
structure ProcessOutcome where
  state : DataState
  sent_blocks : List BlockDetail
  sent_voters : List (List Bool)
  result : Except ProcessLeafError Unit
deriving DecidableEq, Repr

/-- Source `process_incoming_leaf`: build the block detail (twice, as in the source),
remap the voter bitmap under the store's write lock, append the paired
histories, drop the lock, then send on the block channel and the voter
channel in sequence, failing fast on a disconnected receiver. A channel is
modelled by whether its receiving end is still open. -/
def process_incoming_leaf (leaf : Leaf) (data_state : DataState)
    (block_receiver_open voters_receiver_open : Bool) : ProcessOutcome :=
  let block_detail := create_block_detail_from_leaf leaf
  let block_detail_copy := create_block_detail_from_leaf leaf
  let stake_table_voters_bit_vec := leafRawBitVec leaf
  let stable_table_entries_vec := stakeEntriesVec data_state.stake_table
  let voters_bitvec :=
    voterRemap stake_table_voters_bit_vec stable_table_entries_vec
      data_state.node_identity
  let data_state :=
    { data_state with
        latest_blocks := circularPushBack data_state.latest_blocks block_detail
        latest_voters := circularPushBack data_state.latest_voters voters_bitvec }
  if block_receiver_open then
    if voters_receiver_open then
      { state := data_state
        sent_blocks := [block_detail_copy]
        sent_voters := [voters_bitvec]
        result := .ok () }
    else
      { state := data_state
        sent_blocks := [block_detail_copy]
        sent_voters := []
        result := .error (.sendError .disconnected) }
  else
    { state := data_state
      sent_blocks := []
      sent_voters := []
      result := .error (.sendError .disconnected) }

/-- Observable outcome of `process_leaf_stream`: the final store, everything
delivered on each channel, and the leaves left unconsumed when the loop
stopped. -/
structure StreamOutcome where
  state : DataState
  sent_blocks : List BlockDetail
  sent_voters : List (List Bool)
  remaining : List Leaf
deriving DecidableEq, Repr

/-- Source `process_leaf_stream`: pull one leaf at a time and process it, stopping
cleanly at end of stream and breaking out of the loop on the first
`process_incoming_leaf` error. -/
def process_leaf_stream (leaves : List Leaf) (data_state : DataState)
    (block_receiver_open voters_receiver_open : Bool) : StreamOutcome :=
  match leaves with
  | [] => { state := data_state, sent_blocks := [], sent_voters := [], remaining := [] }
  | leaf :: rest =>
    let out := process_incoming_leaf leaf data_state block_receiver_open
      voters_receiver_open
    match out.result with
    | .error _ =>
      { state := out.state
        sent_blocks := out.sent_blocks
        sent_voters := out.sent_voters
        remaining := rest }
    | .ok _ =>
      let tailOut := process_leaf_stream rest out.state block_receiver_open
        voters_receiver_open
      { state := tailOut.state
        sent_blocks := out.sent_blocks ++ tailOut.sent_blocks
        sent_voters := out.sent_voters ++ tailOut.sent_voters
        remaining := tailOut.remaining }

/-- A minimal genesis-like leaf: no payload and no quorum-certificate
signatures. -/
def sampleLeaf : Leaf :=
  { block_header :=
      { commitment := 0, height := 0, timestamp := 0, proposer_id := 0,
        metadata := 0, fee_info_balance := 0, fee_info_account := 0 }
    block_payload := none
    justify_qc_signatures := none }

/-- A leaf whose raw timestamp reinterprets to a negative, unrepresentable
instant. -/
def overflowLeaf : Leaf :=
  { block_header :=
      { commitment := 0, height := 0, timestamp := 2 ^ 63, proposer_id := 0,
        metadata := 0, fee_info_balance := 0, fee_info_account := 0 }
    block_payload := none
    justify_qc_signatures := none }

/-- A freshly constructed empty store. -/
def emptyDataState : DataState :=
  { latest_blocks := []
    latest_voters := []
    stake_table := { entries_last_epoch_start := none }
    node_identity := [] }

/-! ### Helper lemmas about the voter remap -/

theorem foldl_push_eq_map {α : Type} (f : α → Bool) :
    ∀ (reg : List α) (acc : List Bool),
      reg.foldl (fun a k => a ++ [f k]) acc = acc ++ reg.map f
  | [], acc => by simp
  | k :: reg, acc => by
    simp [List.foldl_cons, foldl_push_eq_map f reg]

theorem voterRemap_eq_map (raw : List Bool) (entries : List StakeEntry)
    (registry : List (BLSPubKey × NodeIdentity)) :
    voterRemap raw entries registry =
      registry.map (fun key => decide (key.1 ∈ votedKeys raw entries)) := by
  unfold voterRemap
  simpa using foldl_push_eq_map _ registry []

theorem voterRemap_length (raw : List Bool) (entries : List StakeEntry)
    (registry : List (BLSPubKey × NodeIdentity)) :
    (voterRemap raw entries registry).length = registry.length := by
  rw [voterRemap_eq_map, List.length_map]

theorem zip_eq_zip_take {α β : Type} :
    ∀ (l1 : List α) (l2 : List β),
      l1.zip l2 = (l1.take l2.length).zip (l2.take l1.length)
  | [], _ => by simp
  | _ :: _, [] => by simp
  | a :: l1, b :: l2 => by
    simp [List.zip_cons_cons, zip_eq_zip_take l1 l2]

/-! ### Claim theorems about the voter remap -/

/-- C1: for every raw stake-table-order bitmap, stake-table enumeration and
node-identity registry, bit `i` of the remapped identity-order bitmap is true
iff the `i`-th registered public key belongs to the set of keys whose
positionally paired bit (truncated pairing) is set. -/
theorem voter_remap_identity_order_bit (raw : List Bool)
    (entries : List StakeEntry) (registry : List (BLSPubKey × NodeIdentity))
    (i : Nat) (h : i < registry.length) :
    ((voterRemap raw entries registry).getD i false = true ↔
      (registry.getD i (0, ⟨0, 0⟩)).1 ∈ votedKeys raw entries) := by
  rw [voterRemap_eq_map]
  rw [List.getD_eq_getElem _ _ (by simpa using h)]
  rw [List.getElem_map]
  rw [List.getD_eq_getElem _ _ h]
  simp

/-- C1 witness: the spec's concrete example, keys A=0, B=1, C=2, snapshot
order [A,B,C], raw bitmap [true,false,true], registry order [C,A,B] yields
[true,true,false]. -/
theorem voter_remap_identity_order_bit_witness :
    ((voterRemap [true, false, true] [(0, 0, 0), (1, 0, 0), (2, 0, 0)]
        [(2, ⟨2, 0⟩), (0, ⟨0, 0⟩), (1, ⟨1, 0⟩)]).getD 0 false = true ↔
      (([(2, (⟨2, 0⟩ : NodeIdentity)), (0, ⟨0, 0⟩), (1, ⟨1, 0⟩)].getD 0
          (0, ⟨0, 0⟩)).1 ∈
        votedKeys [true, false, true] [(0, 0, 0), (1, 0, 0), (2, 0, 0)])) ∧
    voterRemap [true, false, true] [(0, 0, 0), (1, 0, 0), (2, 0, 0)]
        [(2, ⟨2, 0⟩), (0, ⟨0, 0⟩), (1, ⟨1, 0⟩)] = [true, true, false] :=
  ⟨voter_remap_identity_order_bit [true, false, true]
      [(0, 0, 0), (1, 0, 0), (2, 0, 0)]
      [(2, ⟨2, 0⟩), (0, ⟨0, 0⟩), (1, ⟨1, 0⟩)] 0 (by decide),
    by decide⟩

/-- C5: the remap degenerates to an all-false bitmap of the registry's length
when the raw bitmap is empty (or absent) or the stake-table enumeration is
unavailable — an absent `signatures` yields the empty raw bitmap, and a
failed `try_iter` yields the empty enumeration; no failure is possible. -/
theorem voter_remap_degenerate (raw : List Bool) (entries : List StakeEntry)
    (registry : List (BLSPubKey × NodeIdentity)) (leaf : Leaf)
    (st : StakeTable) :
    (raw = [] ∨ entries = [] →
      voterRemap raw entries registry = List.replicate registry.length false) ∧
    (leaf.justify_qc_signatures = none → leafRawBitVec leaf = []) ∧
    (st.entries_last_epoch_start = none → stakeEntriesVec st = []) := by
  refine ⟨?_, ?_, ?_⟩
  · rintro (rfl | rfl) <;>
      simp [voterRemap_eq_map, votedKeys, List.map_const']
  · intro h
    simp [leafRawBitVec, h]
  · intro h
    simp [stakeEntriesVec, StakeTable.try_iter, h]

/-- C5 witness: a singleton registry with an empty raw bitmap, a leaf with no
quorum-certificate signatures, and a stake table whose enumeration fails. -/
theorem voter_remap_degenerate_witness :
    voterRemap [] [(5, 0, 0)] [(7, ⟨7, 0⟩)] = List.replicate 1 false ∧
    leafRawBitVec
      { block_header :=
          { commitment := 0, height := 0, timestamp := 0, proposer_id := 0,
            metadata := 0, fee_info_balance := 0, fee_info_account := 0 }
        block_payload := none
        justify_qc_signatures := none } = [] ∧
    stakeEntriesVec { entries_last_epoch_start := none } = [] := by
  have h := voter_remap_degenerate [] [(5, 0, 0)] [(7, ⟨7, 0⟩)]
    { block_header :=
        { commitment := 0, height := 0, timestamp := 0, proposer_id := 0,
          metadata := 0, fee_info_balance := 0, fee_info_account := 0 }
      block_payload := none
      justify_qc_signatures := none }
    { entries_last_epoch_start := none }
  exact ⟨h.1 (Or.inl rfl), h.2.1 rfl, h.2.2 rfl⟩

/-- C6: the remap's positional pairing is truncated to the shorter of the raw
bitmap and the stake-table enumeration — excess elements of the longer one
are dropped without changing the result — and the pairing has exactly
`min` length, so no out-of-range access occurs. -/
theorem voter_remap_pairing_truncated (raw : List Bool)
    (entries : List StakeEntry) (registry : List (BLSPubKey × NodeIdentity)) :
    voterRemap raw entries registry =
      voterRemap (raw.take entries.length) (entries.take raw.length)
        registry ∧
    (List.zip raw entries).length = min raw.length entries.length := by
  constructor
  · unfold voterRemap votedKeys
    rw [← zip_eq_zip_take]
  · exact List.length_zip raw entries

/-! ### Helper lemmas about the bounded histories -/

theorem MAX_HISTORY_eq : MAX_HISTORY = 50 := rfl

theorem circularPushBack_length {α : Type} (l : List α) (x : α) :
    (circularPushBack l x).length =
      if l.length = MAX_HISTORY then MAX_HISTORY else l.length + 1 := by
  unfold circularPushBack
  split
  · rename_i h
    have : 0 < l.length := by rw [h, MAX_HISTORY_eq]; omega
    simp [List.length_tail]
    omega
  · simp

theorem foldl_circularPushBack_nil {α : Type} (bs : List α) :
    bs.foldl circularPushBack [] = bs.drop (bs.length - MAX_HISTORY) := by
  induction bs using List.reverseRecOn with
  | nil => simp
  | append_singleton bs x ih =>
    rw [List.foldl_append, List.foldl_cons, List.foldl_nil, ih]
    unfold circularPushBack
    rw [List.length_drop]
    by_cases h : MAX_HISTORY ≤ bs.length
    · rw [if_pos (by omega)]
      rw [List.tail_drop]
      rw [List.drop_append_of_le_length (by simp; have := MAX_HISTORY_eq; omega)]
      have hidx : bs.length - MAX_HISTORY + 1 = (bs ++ [x]).length - MAX_HISTORY := by
        simp only [List.length_append, List.length_cons, List.length_nil]
        omega
      rw [hidx]
    · have h1 : bs.length - MAX_HISTORY = 0 := by omega
      rw [if_neg (by omega)]
      have h2 : (bs ++ [x]).length - MAX_HISTORY = 0 := by
        simp [List.length_append]
        omega
      rw [h1, h2, List.drop_zero, List.drop_zero]

theorem foldl_add_latest_block_blocks :
    ∀ (bs : List BlockDetail) (s : DataState),
      (bs.foldl DataState.add_latest_block s).latest_blocks =
        bs.foldl circularPushBack s.latest_blocks
  | [], _ => rfl
  | b :: bs, s => by
    rw [List.foldl_cons, List.foldl_cons]
    exact foldl_add_latest_block_blocks bs (s.add_latest_block b)

theorem foldl_add_latest_voters_voters :
    ∀ (vs : List (List Bool)) (s : DataState),
      (vs.foldl DataState.add_latest_voters s).latest_voters =
        vs.foldl circularPushBack s.latest_voters
  | [], _ => rfl
  | v :: vs, s => by
    rw [List.foldl_cons, List.foldl_cons]
    exact foldl_add_latest_voters_voters vs (s.add_latest_voters v)

/-- The state written by `process_incoming_leaf` before any send is attempted:
exactly one paired append of the block detail and the remapped voter bitmap,
with all other fields untouched. -/
theorem process_incoming_leaf_state (leaf : Leaf) (s : DataState)
    (bo vo : Bool) :
    (process_incoming_leaf leaf s bo vo).state =
      { s with
          latest_blocks :=
            circularPushBack s.latest_blocks (create_block_detail_from_leaf leaf)
          latest_voters :=
            circularPushBack s.latest_voters
              (voterRemap (leafRawBitVec leaf) (stakeEntriesVec s.stake_table)
                s.node_identity) } := by
  cases bo <;> cases vo <;> rfl

theorem stream_lockstep :
    ∀ (leaves : List Leaf) (s : DataState) (bo vo : Bool),
      s.latest_blocks.length = s.latest_voters.length →
      (process_leaf_stream leaves s bo vo).state.latest_blocks.length =
        (process_leaf_stream leaves s bo vo).state.latest_voters.length
  | [], _, _, _, h => h
  | leaf :: rest, s, bo, vo, h => by
    have hinc : (process_incoming_leaf leaf s bo vo).state.latest_blocks.length =
        (process_incoming_leaf leaf s bo vo).state.latest_voters.length := by
      rw [process_incoming_leaf_state]
      simp only [circularPushBack_length, h]
    simp only [process_leaf_stream]
    cases hres : (process_incoming_leaf leaf s bo vo).result with
    | error e => simpa [hres] using hinc
    | ok u => simpa [hres] using stream_lockstep rest _ bo vo hinc

/-! ### Claim theorems about the bounded histories and the store -/

/-- C3: appending N ≥ 1 summaries through `add_latest_block` into an empty
history leaves exactly `min N MAX_HISTORY` entries, and they are exactly the
last `MAX_HISTORY` appended in original relative order (`List.drop` of the
appended sequence); `add_latest_voters` obeys the same FIFO discipline. -/
theorem bounded_history_fifo (s : DataState) (bs : List BlockDetail)
    (vs : List (List Bool)) (hb : s.latest_blocks = [])
    (hv : s.latest_voters = []) (hbn : 1 ≤ bs.length) (hvn : 1 ≤ vs.length) :
    ((bs.foldl DataState.add_latest_block s).latest_blocks =
        bs.drop (bs.length - MAX_HISTORY) ∧
      (bs.foldl DataState.add_latest_block s).latest_blocks.length =
        min bs.length MAX_HISTORY) ∧
    ((vs.foldl DataState.add_latest_voters s).latest_voters =
        vs.drop (vs.length - MAX_HISTORY) ∧
      (vs.foldl DataState.add_latest_voters s).latest_voters.length =
        min vs.length MAX_HISTORY) := by
  have hb1 := foldl_add_latest_block_blocks bs s
  rw [hb, foldl_circularPushBack_nil] at hb1
  have hv1 := foldl_add_latest_voters_voters vs s
  rw [hv, foldl_circularPushBack_nil] at hv1
  have hm := MAX_HISTORY_eq
  refine ⟨⟨hb1, ?_⟩, hv1, ?_⟩
  · rw [hb1, List.length_drop]
    omega
  · rw [hv1, List.length_drop]
    omega

/-- C3 witness: a single block summary and a single voter bitmap appended
into a fresh store. -/
theorem bounded_history_fifo_witness :
    (([({ hash := 0, height := 0, time := 0, proposer_id := 0,
            num_transactions := 0, block_reward := [], fee_recipient := 0,
            size := 0 } : BlockDetail)].foldl DataState.add_latest_block
          ⟨[], [], ⟨none⟩, []⟩).latest_blocks =
        [({ hash := 0, height := 0, time := 0, proposer_id := 0,
            num_transactions := 0, block_reward := [], fee_recipient := 0,
            size := 0 } : BlockDetail)].drop (1 - MAX_HISTORY) ∧
      ([({ hash := 0, height := 0, time := 0, proposer_id := 0,
            num_transactions := 0, block_reward := [], fee_recipient := 0,
            size := 0 } : BlockDetail)].foldl DataState.add_latest_block
          ⟨[], [], ⟨none⟩, []⟩).latest_blocks.length = min 1 MAX_HISTORY) ∧
    (([[true]].foldl DataState.add_latest_voters
          ⟨[], [], ⟨none⟩, []⟩).latest_voters = [[true]].drop (1 - MAX_HISTORY) ∧
      ([[true]].foldl DataState.add_latest_voters
          ⟨[], [], ⟨none⟩, []⟩).latest_voters.length = min 1 MAX_HISTORY) :=
  bounded_history_fifo ⟨[], [], ⟨none⟩, []⟩
    [{ hash := 0, height := 0, time := 0, proposer_id := 0,
       num_transactions := 0, block_reward := [], fee_recipient := 0,
       size := 0 }] [[true]] rfl rfl (by decide) (by decide)

/-- C4: starting from a store whose histories have equal counts, the counts
of `latest_blocks` and `latest_voters` are again equal after the mutation of
`process_incoming_leaf` and after any run of `process_leaf_stream`; the
mutation is exactly one paired append to each history. -/
theorem lockstep_histories (leaf : Leaf) (leaves : List Leaf) (s : DataState)
    (bo vo : Bool) (h : s.latest_blocks.length = s.latest_voters.length) :
    ((process_incoming_leaf leaf s bo vo).state.latest_blocks.length =
      (process_incoming_leaf leaf s bo vo).state.latest_voters.length) ∧
    ((process_leaf_stream leaves s bo vo).state.latest_blocks.length =
      (process_leaf_stream leaves s bo vo).state.latest_voters.length) ∧
    (process_incoming_leaf leaf s bo vo).state.latest_blocks =
      circularPushBack s.latest_blocks (create_block_detail_from_leaf leaf) ∧
    (process_incoming_leaf leaf s bo vo).state.latest_voters =
      circularPushBack s.latest_voters
        (voterRemap (leafRawBitVec leaf) (stakeEntriesVec s.stake_table)
          s.node_identity) := by
  refine ⟨?_, stream_lockstep leaves s bo vo h, ?_, ?_⟩
  · rw [process_incoming_leaf_state]
    simp only [circularPushBack_length, h]
  · rw [process_incoming_leaf_state]
  · rw [process_incoming_leaf_state]

/-- C4 witness: one genesis-like leaf processed against a fresh store with
open channels. -/
theorem lockstep_histories_witness :
    ((process_incoming_leaf
        { block_header :=
            { commitment := 0, height := 0, timestamp := 0, proposer_id := 0,
              metadata := 0, fee_info_balance := 0, fee_info_account := 0 }
          block_payload := none
          justify_qc_signatures := none } ⟨[], [], ⟨none⟩, []⟩ true
        true).state.latest_blocks.length =
      (process_incoming_leaf
        { block_header :=
            { commitment := 0, height := 0, timestamp := 0, proposer_id := 0,
              metadata := 0, fee_info_balance := 0, fee_info_account := 0 }
          block_payload := none
          justify_qc_signatures := none } ⟨[], [], ⟨none⟩, []⟩ true
        true).state.latest_voters.length) ∧
    ((process_leaf_stream []
        ⟨[], [], ⟨none⟩, []⟩ true true).state.latest_blocks.length =
      (process_leaf_stream []
        ⟨[], [], ⟨none⟩, []⟩ true true).state.latest_voters.length) ∧
    (process_incoming_leaf
        { block_header :=
            { commitment := 0, height := 0, timestamp := 0, proposer_id := 0,
              metadata := 0, fee_info_balance := 0, fee_info_account := 0 }
          block_payload := none
          justify_qc_signatures := none } ⟨[], [], ⟨none⟩, []⟩ true
        true).state.latest_blocks =
      circularPushBack [] (create_block_detail_from_leaf
        { block_header :=
            { commitment := 0, height := 0, timestamp := 0, proposer_id := 0,
              metadata := 0, fee_info_balance := 0, fee_info_account := 0 }
          block_payload := none
          justify_qc_signatures := none }) ∧
    (process_incoming_leaf
        { block_header :=
            { commitment := 0, height := 0, timestamp := 0, proposer_id := 0,
              metadata := 0, fee_info_balance := 0, fee_info_account := 0 }
          block_payload := none
          justify_qc_signatures := none } ⟨[], [], ⟨none⟩, []⟩ true
        true).state.latest_voters =
      circularPushBack []
        (voterRemap (leafRawBitVec
            { block_header :=
                { commitment := 0, height := 0, timestamp := 0,
                  proposer_id := 0, metadata := 0, fee_info_balance := 0,
                  fee_info_account := 0 }
              block_payload := none
              justify_qc_signatures := none }) (stakeEntriesVec ⟨none⟩) []) :=
  lockstep_histories
    { block_header :=
        { commitment := 0, height := 0, timestamp := 0, proposer_id := 0,
          metadata := 0, fee_info_balance := 0, fee_info_account := 0 }
      block_payload := none
      justify_qc_signatures := none } [] ⟨[], [], ⟨none⟩, []⟩ true true rfl

/-- C9: `replace_stake_table` swaps only the stored stake-table snapshot and
leaves the bounded histories and the node-identity registry untouched. -/
theorem replace_stake_table_frame (s : DataState) (st : StakeTable) :
    (s.replace_stake_table st).latest_blocks = s.latest_blocks ∧
    (s.replace_stake_table st).latest_voters = s.latest_voters ∧
    (s.replace_stake_table st).node_identity = s.node_identity ∧
    (s.replace_stake_table st).stake_table = st :=
  ⟨rfl, rfl, rfl, rfl⟩

/-! ### Claim theorems about the pipeline and the block-summary builder -/

theorem circularPushBack_getLast {α : Type} (l : List α) (x : α) :
    (circularPushBack l x).getLast? = some x := by
  unfold circularPushBack
  split <;> simp

/-- C2: with either receiving end dropped, `process_incoming_leaf` returns a
`SendError`; the paired append already committed to the store before any
send is kept (it is exactly one paired append, not rolled back); no output
follows the failed send; and `process_leaf_stream` stops consuming further
leaves after the failing one. -/
theorem send_failure_terminates (leaf : Leaf) (rest : List Leaf)
    (s : DataState) (bo vo : Bool) (h : bo = false ∨ vo = false) :
    (process_incoming_leaf leaf s bo vo).result =
      .error (.sendError .disconnected) ∧
    (process_incoming_leaf leaf s bo vo).state =
      { s with
          latest_blocks :=
            circularPushBack s.latest_blocks (create_block_detail_from_leaf leaf)
          latest_voters :=
            circularPushBack s.latest_voters
              (voterRemap (leafRawBitVec leaf) (stakeEntriesVec s.stake_table)
                s.node_identity) } ∧
    (bo = false → (process_incoming_leaf leaf s bo vo).sent_blocks = [] ∧
      (process_incoming_leaf leaf s bo vo).sent_voters = []) ∧
    (vo = false → (process_incoming_leaf leaf s bo vo).sent_voters = []) ∧
    process_leaf_stream (leaf :: rest) s bo vo =
      { state := (process_incoming_leaf leaf s bo vo).state
        sent_blocks := (process_incoming_leaf leaf s bo vo).sent_blocks
        sent_voters := (process_incoming_leaf leaf s bo vo).sent_voters
        remaining := rest } := by
  rcases h with rfl | rfl
  · cases vo <;> simp [process_incoming_leaf, process_leaf_stream]
  · cases bo <;> simp [process_incoming_leaf, process_leaf_stream]

/-- C2 witness: a genesis-like leaf against a fresh store with both
receiving ends dropped. -/
theorem send_failure_terminates_witness :
    (process_incoming_leaf sampleLeaf emptyDataState false false).result =
      .error (.sendError .disconnected) ∧
    (process_incoming_leaf sampleLeaf emptyDataState false false).state =
      { emptyDataState with
          latest_blocks :=
            circularPushBack emptyDataState.latest_blocks
              (create_block_detail_from_leaf sampleLeaf)
          latest_voters :=
            circularPushBack emptyDataState.latest_voters
              (voterRemap (leafRawBitVec sampleLeaf)
                (stakeEntriesVec emptyDataState.stake_table)
                emptyDataState.node_identity) } ∧
    (false = false →
      (process_incoming_leaf sampleLeaf emptyDataState false
          false).sent_blocks = [] ∧
      (process_incoming_leaf sampleLeaf emptyDataState false
          false).sent_voters = []) ∧
    (false = false →
      (process_incoming_leaf sampleLeaf emptyDataState false
          false).sent_voters = []) ∧
    process_leaf_stream [sampleLeaf] emptyDataState false false =
      { state := (process_incoming_leaf sampleLeaf emptyDataState false
          false).state
        sent_blocks := (process_incoming_leaf sampleLeaf emptyDataState false
          false).sent_blocks
        sent_voters := (process_incoming_leaf sampleLeaf emptyDataState false
          false).sent_voters
        remaining := [] } :=
  send_failure_terminates sampleLeaf [] emptyDataState false false
    (Or.inl rfl)

/-- C7: the finalization timestamp is the converted raw epoch-seconds value
exactly when that value is representable, and `UNIX_EPOCH` exactly when it is
out of range; the conversion never raises an error. -/
theorem timestamp_fallback (leaf : Leaf) :
    ((offsetDateTimeMinUnix ≤ u64_as_i64 leaf.block_header.timestamp ∧
        u64_as_i64 leaf.block_header.timestamp ≤ offsetDateTimeMaxUnix) →
      (create_block_detail_from_leaf leaf).time =
        u64_as_i64 leaf.block_header.timestamp) ∧
    (¬(offsetDateTimeMinUnix ≤ u64_as_i64 leaf.block_header.timestamp ∧
        u64_as_i64 leaf.block_header.timestamp ≤ offsetDateTimeMaxUnix) →
      (create_block_detail_from_leaf leaf).time = UNIX_EPOCH) := by
  constructor <;> intro h <;>
    simp [create_block_detail_from_leaf, from_unix_timestamp, h]

/-- C7 witness: a representable timestamp converts, and the wrapped-negative
timestamp of `overflowLeaf` falls back to the unix epoch. -/
theorem timestamp_fallback_witness :
    (create_block_detail_from_leaf sampleLeaf).time =
      u64_as_i64 sampleLeaf.block_header.timestamp ∧
    (create_block_detail_from_leaf overflowLeaf).time = UNIX_EPOCH :=
  ⟨(timestamp_fallback sampleLeaf).1 (by decide),
    (timestamp_fallback overflowLeaf).2 (by decide)⟩

/-- C8: when the leaf carries no payload, the canonical empty payload is
substituted before the transaction-count and total-size fields are computed;
the builder is total, with no failure mode visible to callers. -/
theorem empty_payload_substitution (leaf : Leaf)
    (h : leaf.block_payload = none) :
    create_block_detail_from_leaf leaf =
      create_block_detail_from_leaf
        { leaf with block_payload := some Payload.empty } ∧
    (create_block_detail_from_leaf leaf).num_transactions =
      Payload.empty.num_transactions leaf.block_header.metadata ∧
    (create_block_detail_from_leaf leaf).size =
      (Payload.empty.transactions leaf.block_header.metadata).foldl
        (fun acc tx => acc + tx.length) 0 := by
  refine ⟨?_, ?_, ?_⟩ <;>
    simp [create_block_detail_from_leaf, h]

/-- C8 witness: the payload-free `sampleLeaf`. -/
theorem empty_payload_substitution_witness :
    create_block_detail_from_leaf sampleLeaf =
      create_block_detail_from_leaf
        { sampleLeaf with block_payload := some Payload.empty } ∧
    (create_block_detail_from_leaf sampleLeaf).num_transactions =
      Payload.empty.num_transactions sampleLeaf.block_header.metadata ∧
    (create_block_detail_from_leaf sampleLeaf).size =
      (Payload.empty.transactions sampleLeaf.block_header.metadata).foldl
        (fun acc tx => acc + tx.length) 0 :=
  empty_payload_substitution sampleLeaf rfl

/-- C10: what is emitted equals what was committed — with both receivers
open, the block summary sent on the block channel is the deterministically
rebuilt summary appended as the last entry of `latest_blocks`, and the bitmap
sent on the voter channel is the bitmap appended as the last entry of
`latest_voters`. -/
theorem emitted_equals_committed (leaf : Leaf) (s : DataState) :
    (process_incoming_leaf leaf s true true).sent_blocks =
      [create_block_detail_from_leaf leaf] ∧
    (process_incoming_leaf leaf s true true).state.latest_blocks.getLast? =
      some (create_block_detail_from_leaf leaf) ∧
    (process_incoming_leaf leaf s true true).sent_voters =
      [voterRemap (leafRawBitVec leaf) (stakeEntriesVec s.stake_table)
        s.node_identity] ∧
    (process_incoming_leaf leaf s true true).state.latest_voters.getLast? =
      some (voterRemap (leafRawBitVec leaf) (stakeEntriesVec s.stake_table)
        s.node_identity) := by
  refine ⟨rfl, ?_, rfl, ?_⟩ <;>
  · rw [process_incoming_leaf_state]
    exact circularPushBack_getLast _ _

end NodeMetrics
